import Mathlib

/-!
Shallow embedding of the multi-company double-entry accounting core of
src/app.py (class MultiCompanyAccounting and the reset handler in
show_company_settings).  Python Decimal amounts are modelled as exact
rationals; the per-company dict of accounts is modelled as an association
list from account code to account, preserving insertion order.
-/

set_option maxRecDepth 4000

/-- An account as stored in the chart of accounts: display name, account
class string (asset, liability, equity, income, expense) and current
signed balance (src/app.py lines 69-99). -/
structure Account where
  name : String
  type : String
  balance : ℚ
deriving DecidableEq, Repr

/-- One line of a posting request: an account code plus an optional debit
and an optional credit amount.  In the source an entry is a dict that may
or may not carry the keys debit and credit (src/app.py lines 347-355);
an absent key is modelled as none. -/
structure Entry where
  account : String
  debit : Option ℚ
  credit : Option ℚ
deriving DecidableEq, Repr

/-- A recorded transaction (src/app.py lines 124-130). -/
structure Transaction where
  id : Nat
  date : String
  description : String
  entries : List Entry
  vat_rate : ℚ
deriving DecidableEq, Repr

/-- Per-company ledger state: the name, the transaction log and the chart
of accounts (src/app.py lines 51-62). -/
structure Company where
  name : String
  transactions : List Transaction
  accounts : List (String × Account)
deriving DecidableEq, Repr

/-- create_chart_of_accounts (src/app.py lines 65-100): the standard
seeded chart, every balance zero. -/
def create_chart_of_accounts : List (String × Account) :=
  [ ("1000", ⟨"Cash", "asset", 0⟩),
    ("1100", ⟨"Accounts Receivable", "asset", 0⟩),
    ("1200", ⟨"Inventory", "asset", 0⟩),
    ("1500", ⟨"Equipment", "asset", 0⟩),
    ("1600", ⟨"Vehicles", "asset", 0⟩),
    ("2000", ⟨"Accounts Payable", "liability", 0⟩),
    ("2100", ⟨"VAT Payable", "liability", 0⟩),
    ("2500", ⟨"Bank Loan", "liability", 0⟩),
    ("2600", ⟨"Credit Card", "liability", 0⟩),
    ("3000", ⟨"Owner\x27s Capital", "equity", 0⟩),
    ("3900", ⟨"Retained Earnings", "equity", 0⟩),
    ("3950", ⟨"Current Year Earnings", "equity", 0⟩),
    ("4000", ⟨"Product Sales", "income", 0⟩),
    ("4100", ⟨"Service Revenue", "income", 0⟩),
    ("4200", ⟨"Consulting Income", "income", 0⟩),
    ("5000", ⟨"Cost of Goods Sold", "expense", 0⟩),
    ("5100", ⟨"Salary Expense", "expense", 0⟩),
    ("5200", ⟨"Rent Expense", "expense", 0⟩),
    ("5300", ⟨"Utilities Expense", "expense", 0⟩),
    ("5400", ⟨"Marketing Expense", "expense", 0⟩),
    ("5500", ⟨"Office Supplies", "expense", 0⟩),
    ("5600", ⟨"Travel Expense", "expense", 0⟩),
    ("5700", ⟨"Professional Fees", "expense", 0⟩) ]

/-- Total of the debit fields of an entry list, a missing debit counting
as 0, mirroring entry.get with default 0 (src/app.py line 106). -/
def totalDebits (es : List Entry) : ℚ :=
  (es.map fun e => e.debit.getD 0).sum

/-- Total of the credit fields of an entry list (src/app.py line 107). -/
def totalCredits (es : List Entry) : ℚ :=
  (es.map fun e => e.credit.getD 0).sum

/-- The net signed effect of one entry on the balance of its account:
debit added, credit subtracted, absent fields contributing 0
(src/app.py lines 118-121). -/
def entryAmt (e : Entry) : ℚ :=
  e.debit.getD 0 - e.credit.getD 0

/-- Apply one entry to the chart: if the account code is a key of the
chart, its balance is increased by the debit and decreased by the credit;
an entry whose code is not in the chart is silently skipped
(src/app.py lines 114-121). -/
def applyEntry (accts : List (String × Account)) (e : Entry) :
    List (String × Account) :=
  accts.map fun p =>
    if p.1 = e.account then
      (p.1, { p.2 with balance := p.2.balance + e.debit.getD 0 - e.credit.getD 0 })
    else p

/-- record_transaction (src/app.py lines 102-138), restricted to one
company.  If the debit and credit totals differ it reports failure and
returns the state unchanged; otherwise it applies every entry in order and
appends a transaction whose id is the previous log length plus one. -/
def record_transaction (c : Company) (date description : String)
    (entries : List Entry) (vat_rate : ℚ) : Bool × Company :=
  if totalDebits entries = totalCredits entries then
    (true,
      { c with
        accounts := entries.foldl applyEntry c.accounts,
        transactions := c.transactions ++
          [{ id := c.transactions.length + 1, date := date,
             description := description, entries := entries,
             vat_rate := vat_rate }] })
  else
    (false, c)

/-- Sum of the balances of the accounts of a given class in a raw chart
(the body of get_account_balance, src/app.py lines 140-146). -/
def classTotal (accts : List (String × Account)) (t : String) : ℚ :=
  (accts.map fun p => if p.2.type = t then p.2.balance else 0).sum

/-- get_account_balance (src/app.py lines 140-146): total balance of all
accounts of the given class. -/
def get_account_balance (c : Company) (t : String) : ℚ :=
  classTotal c.accounts t

/-- calculate_net_income (src/app.py lines 166-170). -/
def calculate_net_income (c : Company) : ℚ :=
  get_account_balance c "income" - get_account_balance c "expense"

/-- The record returned by generate_balance_sheet
(src/app.py lines 159-164). -/
structure BalanceSheet where
  assets : ℚ
  liabilities : ℚ
  equity : ℚ
  check : Bool
deriving DecidableEq, Repr

/-- Overwrite the balance of the account stored under the given code
(the assignment on src/app.py line 156); a missing code leaves the chart
unchanged. -/
def setBalance (accts : List (String × Account)) (code : String) (v : ℚ) :
    List (String × Account) :=
  accts.map fun p =>
    if p.1 = code then (p.1, { p.2 with balance := v }) else p

/-- generate_balance_sheet (src/app.py lines 148-164).  It reads the
class totals, then writes the computed net income into account 3950 as a
side effect, and returns the report together with the mutated company
state. -/
def generate_balance_sheet (c : Company) : BalanceSheet × Company :=
  let assets := get_account_balance c "asset"
  let liabilities := get_account_balance c "liability"
  let equity := get_account_balance c "equity"
  let net_income := calculate_net_income c
  let c' := { c with accounts := setBalance c.accounts "3950" net_income }
  let equity_out := equity + net_income
  ({ assets := assets, liabilities := liabilities, equity := equity_out,
     check := decide (assets = liabilities + equity_out) }, c')

/-- The reset handler for a company (src/app.py lines 579-583 and
586-590): clear the transaction log and reseed the chart; the company
name is not touched. -/
def reset_company (c : Company) : Company :=
  { c with transactions := [], accounts := create_chart_of_accounts }

/-- The fields of a transaction other than vat_rate:
(id, date, description, entries). -/
def txWithoutVat (tx : Transaction) : Nat × String × String × List Entry :=
  (tx.id, tx.date, tx.description, tx.entries)

/-- One row of the flattened transaction history
(src/app.py lines 177-184).  The account name is looked up in the chart
of the company; a missing code (which raises KeyError in the source) is
modelled as none. -/
structure HistoryRow where
  date : String
  description : String
  account : String
  accountName : Option String
  debit : ℚ
  credit : ℚ
  company : String
deriving DecidableEq, Repr

/-- get_transaction_history (src/app.py lines 172-185): one row per entry,
oldest transaction first.  The source reads only the date, description and
entries of each transaction, which the definition makes explicit by
projecting those fields first. -/
def get_transaction_history (c : Company) : List HistoryRow :=
  ((c.transactions.map fun tx => (tx.date, tx.description, tx.entries)).map
    fun t => t.2.2.map fun e =>
      { date := t.1, description := t.2.1, account := e.account,
        accountName := (c.accounts.lookup e.account).map Account.name,
        debit := e.debit.getD 0, credit := e.credit.getD 0,
        company := c.name }).flatten

/-- record_transaction at the registry level (src/app.py lines 102-138
with the self.companies dict): the balance check happens before the
company dict is touched, so an unbalanced posting leaves the whole
registry unchanged; an unknown company id raises KeyError in the update
loop, which the enclosing try block turns into a failure with no
mutation. -/
def record_transaction_reg (reg : List (String × Company)) (cid : String)
    (date description : String) (entries : List Entry) (vat_rate : ℚ) :
    Bool × List (String × Company) :=
  if totalDebits entries = totalCredits entries then
    match reg.lookup cid with
    | some c =>
      let res := record_transaction c date description entries vat_rate
      (res.1, reg.map fun p => if p.1 = cid then (p.1, res.2) else p)
    | none => (false, reg)
  else
    (false, reg)

/-- setup_session_state (src/app.py lines 47-63): the two seeded
companies. -/
def initial_companies : List (String × Company) :=
  [ ("company_1",
      { name := "Tech Solutions Ltd", transactions := [],
        accounts := create_chart_of_accounts }),
    ("company_2",
      { name := "Consulting Partners Ltd", transactions := [],
        accounts := create_chart_of_accounts }) ]

/-- The first seeded company, used as the concrete starting state of the
worked examples. -/
def seededCompany : Company :=
  { name := "Tech Solutions Ltd", transactions := [],
    accounts := create_chart_of_accounts }

/-- The code and class of every chart slot, forgetting balances. -/
def skel (accts : List (String × Account)) : List (String × String) :=
  accts.map fun p => (p.1, p.2.type)

/-- The code/class skeleton of the standard chart. -/
def chartSkel : List (String × String) :=
  skel create_chart_of_accounts

/-- The account codes of the standard chart. -/
def chartKeys : List String :=
  create_chart_of_accounts.map Prod.fst

/-- Signed sum of every balance in a chart, all classes together. -/
def totalBalance (accts : List (String × Account)) : ℚ :=
  (accts.map fun p => p.2.balance).sum

/-- Change that one entry makes to the total balance of class t, as a
function of the code/class skeleton only. -/
def entryDelta (t : String) (sk : List (String × String)) (e : Entry) : ℚ :=
  (sk.map fun q => if q.1 = e.account ∧ q.2 = t then entryAmt e else 0).sum

/-- Change that one entry makes to the signed sum of all balances, as a
function of the code/class skeleton only. -/
def keyDelta (sk : List (String × String)) (e : Entry) : ℚ :=
  (sk.map fun q => if q.1 = e.account then entryAmt e else 0).sum

/-- A posting request, bundling the arguments of record_transaction. -/
structure Request where
  date : String
  description : String
  entries : List Entry
  vat_rate : ℚ
deriving DecidableEq, Repr

/-- Run a sequence of posting requests against one company. -/
def apply_requests (c : Company) (rs : List Request) : Company :=
  rs.foldl
    (fun st r => (record_transaction st r.date r.description r.entries r.vat_rate).2)
    c

/-- The transaction ids of the log, in order. -/
def txIds (c : Company) : List Nat :=
  c.transactions.map Transaction.id

/-- The cash sale example of the specification: debit Cash 1200, credit
Product Sales 1000, credit VAT Payable 200. -/
def cashSaleEntries : List Entry :=
  [ ⟨"1000", some 1200, none⟩,
    ⟨"4000", none, some 1000⟩,
    ⟨"2100", none, some 200⟩ ]

/-- The seeded company after posting the cash sale example. -/
def companyAfterSale : Company :=
  (record_transaction seededCompany "2024-01-15" "Cash sale" cashSaleEntries (1/5)).2

/-- A balanced posting that references the unknown account code 9999. -/
def unknownAccountEntries : List Entry :=
  [ ⟨"9999", some 100, none⟩,
    ⟨"1000", none, some 100⟩ ]

/-- The seeded company after posting the unknown-account transaction. -/
def companyAfterUnknown : Company :=
  (record_transaction seededCompany "2024-02-01" "Unknown code" unknownAccountEntries (1/5)).2

/-- A posting whose entries are all invalid in the sense of the
specification: the first has both debit and credit set, the second has
neither, the third and fourth have non-positive amounts; the debit and
credit totals nevertheless agree (both 50). -/
def invalidEntries : List Entry :=
  [ ⟨"1000", some 100, some 100⟩,
    ⟨"1100", none, none⟩,
    ⟨"1200", some (-50), none⟩,
    ⟨"1500", none, some (-50)⟩ ]

/-- The unbalanced example of the specification: debit 500, credit 400. -/
def unbalancedEntries : List Entry :=
  [ ⟨"1000", some 500, none⟩,
    ⟨"4000", none, some 400⟩ ]

/-- A concrete request sequence: one valid cash sale followed by one
unbalanced attempt. -/
def sampleRequests : List Request :=
  [ ⟨"2024-01-15", "Cash sale", cashSaleEntries, 1/5⟩,
    ⟨"2024-01-16", "Unbalanced attempt", unbalancedEntries, 1/5⟩ ]

theorem sum_entryAmt (es : List Entry) :
    (es.map entryAmt).sum = totalDebits es - totalCredits es := by
  induction es with
  | nil => simp [totalDebits, totalCredits]
  | cons e l ih =>
    simp only [totalDebits, totalCredits, entryAmt, List.map_cons, List.sum_cons] at ih ⊢
    rw [ih]
    ring

theorem skel_applyEntry (accts : List (String × Account)) (e : Entry) :
    skel (applyEntry accts e) = skel accts := by
  induction accts with
  | nil => rfl
  | cons p l ih =>
    simp only [skel, applyEntry, List.map_cons] at ih ⊢
    by_cases h : p.1 = e.account <;> simp [h, ih]

theorem skel_foldl (es : List Entry) (accts : List (String × Account)) :
    skel (es.foldl applyEntry accts) = skel accts := by
  induction es generalizing accts with
  | nil => rfl
  | cons e l ih =>
    rw [List.foldl_cons, ih, skel_applyEntry]

theorem classTotal_applyEntry (accts : List (String × Account)) (e : Entry) (t : String) :
    classTotal (applyEntry accts e) t
      = classTotal accts t + entryDelta t (skel accts) e := by
  unfold classTotal applyEntry entryDelta skel entryAmt
  rw [List.map_map, List.map_map]
  induction accts with
  | nil => simp
  | cons p l ih =>
    simp only [List.map_cons, List.sum_cons]
    rw [ih]
    by_cases h1 : p.1 = e.account <;> by_cases h2 : p.2.type = t <;>
      simp [Function.comp, h1, h2] <;> ring

theorem classTotal_foldl (es : List Entry) (accts : List (String × Account)) (t : String) :
    classTotal (es.foldl applyEntry accts) t
      = classTotal accts t + (es.map fun e => entryDelta t (skel accts) e).sum := by
  induction es generalizing accts with
  | nil => simp
  | cons e l ih =>
    rw [List.foldl_cons, ih, classTotal_applyEntry, skel_applyEntry]
    simp only [List.map_cons, List.sum_cons]
    ring

theorem totalBalance_applyEntry (accts : List (String × Account)) (e : Entry) :
    totalBalance (applyEntry accts e)
      = totalBalance accts + keyDelta (skel accts) e := by
  unfold totalBalance applyEntry keyDelta skel entryAmt
  rw [List.map_map, List.map_map]
  induction accts with
  | nil => simp
  | cons p l ih =>
    simp only [List.map_cons, List.sum_cons]
    rw [ih]
    by_cases h1 : p.1 = e.account <;> simp [Function.comp, h1] <;> ring

theorem totalBalance_foldl (es : List Entry) (accts : List (String × Account)) :
    totalBalance (es.foldl applyEntry accts)
      = totalBalance accts + (es.map fun e => keyDelta (skel accts) e).sum := by
  induction es generalizing accts with
  | nil => simp
  | cons e l ih =>
    rw [List.foldl_cons, ih, totalBalance_applyEntry, skel_applyEntry]
    simp only [List.map_cons, List.sum_cons]
    ring

theorem keyDelta_chart (e : Entry) (h : e.account ∈ chartKeys) :
    keyDelta chartSkel e = entryAmt e := by
  have h' : e.account = "1000" ∨ e.account = "1100" ∨ e.account = "1200" ∨
      e.account = "1500" ∨ e.account = "1600" ∨ e.account = "2000" ∨
      e.account = "2100" ∨ e.account = "2500" ∨ e.account = "2600" ∨
      e.account = "3000" ∨ e.account = "3900" ∨ e.account = "3950" ∨
      e.account = "4000" ∨ e.account = "4100" ∨ e.account = "4200" ∨
      e.account = "5000" ∨ e.account = "5100" ∨ e.account = "5200" ∨
      e.account = "5300" ∨ e.account = "5400" ∨ e.account = "5500" ∨
      e.account = "5600" ∨ e.account = "5700" := by
    simpa [chartKeys, create_chart_of_accounts] using h
  rcases h' with h'|h'|h'|h'|h'|h'|h'|h'|h'|h'|h'|h'|h'|h'|h'|h'|h'|h'|h'|h'|h'|h'|h' <;>
    simp [keyDelta, chartSkel, skel, create_chart_of_accounts, h']

theorem types_of_chartSkel (accts : List (String × Account))
    (hsk : skel accts = chartSkel) :
    ∀ p ∈ accts, p.2.type = "asset" ∨ p.2.type = "liability" ∨ p.2.type = "equity" ∨
      p.2.type = "income" ∨ p.2.type = "expense" := by
  intro p hp
  have hmem : (p.1, p.2.type) ∈ chartSkel := by
    rw [← hsk]
    exact List.mem_map_of_mem _ hp
  have htypes : ∀ q ∈ chartSkel, q.2 = "asset" ∨ q.2 = "liability" ∨ q.2 = "equity" ∨
      q.2 = "income" ∨ q.2 = "expense" := by decide
  exact htypes _ hmem

theorem classSum_eq_totalBalance (accts : List (String × Account))
    (h : ∀ p ∈ accts, p.2.type = "asset" ∨ p.2.type = "liability" ∨ p.2.type = "equity" ∨
      p.2.type = "income" ∨ p.2.type = "expense") :
    classTotal accts "asset" + classTotal accts "liability" + classTotal accts "equity" +
      classTotal accts "income" + classTotal accts "expense" = totalBalance accts := by
  induction accts with
  | nil => simp [classTotal, totalBalance]
  | cons p l ih =>
    have hp := h p (by simp)
    have hl := ih fun q hq => h q (by simp [hq])
    simp only [classTotal, totalBalance, List.map_cons, List.sum_cons] at hl ⊢
    rcases hp with hp|hp|hp|hp|hp <;> simp [hp] <;> linarith [hl]

/-- C1: the claimed accounting equation fails on the code.  Posting the
balanced cash sale example (debit Cash 1200, credit Product Sales 1000,
credit VAT Payable 200) to the freshly seeded company succeeds, yet
afterwards the Asset class total is 1200 while Liability + Equity +
(Income - Expense) is -1200: the code stores credits as negative balances
and never sign-adjusts class totals, so the equation stated by the
specification does not hold after this successful posting. -/
theorem accounting_equation_fails_after_cash_sale :
    (record_transaction seededCompany "2024-01-15" "Cash sale" cashSaleEntries (1/5)).1 = true ∧
    get_account_balance companyAfterSale "asset" = 1200 ∧
    get_account_balance companyAfterSale "liability" + get_account_balance companyAfterSale "equity" +
      (get_account_balance companyAfterSale "income" - get_account_balance companyAfterSale "expense") = -1200 ∧
    get_account_balance companyAfterSale "asset" ≠
      get_account_balance companyAfterSale "liability" + get_account_balance companyAfterSale "equity" +
        (get_account_balance companyAfterSale "income" - get_account_balance companyAfterSale "expense") := by
  with_unfolding_all decide

/-- C2: generate_balance_sheet is not idempotent and does not leave the
stored balances unchanged.  After the cash sale, account 3950 holds 0;
the first call writes -1000 into it and reports equity -1000; the second
call reports equity -2000, so two consecutive calls return different
outputs and the first call mutated the ledger. -/
theorem balance_sheet_not_idempotent :
    (companyAfterSale.accounts.lookup "3950").map Account.balance = some 0 ∧
    ((generate_balance_sheet companyAfterSale).2.accounts.lookup "3950").map Account.balance
      = some (-1000) ∧
    (generate_balance_sheet companyAfterSale).1.equity = -1000 ∧
    (generate_balance_sheet (generate_balance_sheet companyAfterSale).2).1.equity = -2000 ∧
    (generate_balance_sheet companyAfterSale).1 ≠
      (generate_balance_sheet (generate_balance_sheet companyAfterSale).2).1 ∧
    (generate_balance_sheet companyAfterSale).2 ≠ companyAfterSale := by
  with_unfolding_all decide

/-- C4: a posting that references the non-existent account code 9999 is
not rejected.  The balanced transaction (debit 9999 by 100, credit Cash
by 100) succeeds, the log grows to length 1, only the Cash leg is
applied (Asset total -100), the signed sum of all balances becomes -100,
and the balance sheet self-check afterwards is false. -/
theorem unknown_account_not_rejected :
    (record_transaction seededCompany "2024-02-01" "Unknown code" unknownAccountEntries (1/5)).1 = true ∧
    companyAfterUnknown.transactions.length = 1 ∧
    get_account_balance companyAfterUnknown "asset" = -100 ∧
    totalBalance companyAfterUnknown.accounts = -100 ∧
    (generate_balance_sheet companyAfterUnknown).1.check = false := by
  with_unfolding_all decide

/-- C3: a posting whose debit total differs from its credit total fails
and leaves the whole registry unchanged: no account balance of any
company moves and no transaction log grows. -/
theorem unbalanced_posting_rejected_no_mutation
    (reg : List (String × Company)) (cid : String) (date description : String)
    (entries : List Entry) (vat_rate : ℚ)
    (h : totalDebits entries ≠ totalCredits entries) :
    record_transaction_reg reg cid date description entries vat_rate = (false, reg) := by
  unfold record_transaction_reg
  rw [if_neg h]

/-- C3 witness: the unbalanced example of the specification (debit 500,
credit 400) against the initial two-company registry. -/
theorem unbalanced_posting_rejected_no_mutation_witness :
    totalDebits unbalancedEntries ≠ totalCredits unbalancedEntries ∧
    record_transaction_reg initial_companies "company_1" "2024-01-20" "Unbalanced" unbalancedEntries (1/5)
      = (false, initial_companies) :=
  ⟨by with_unfolding_all decide,
   unbalanced_posting_rejected_no_mutation initial_companies "company_1" "2024-01-20"
     "Unbalanced" unbalancedEntries (1/5) (by with_unfolding_all decide)⟩

/-- C5 counterexample: the posting whose entries all violate the
per-entry validity rules (both sides set, neither side set, negative
amounts) is accepted, because the code only compares the two totals:
record_transaction returns success and appends the transaction. -/
theorem invalid_entries_accepted :
    (record_transaction seededCompany "2024-03-01" "Invalid entries" invalidEntries (1/5)).1 = true ∧
    (record_transaction seededCompany "2024-03-01" "Invalid entries" invalidEntries (1/5)).2.transactions.length = 1 := by
  with_unfolding_all decide

/-- C5 amended: record_transaction performs no per-entry validation;
every entry list whose debit total equals its credit total is accepted,
whatever the shape of the individual entries, and exactly one transaction
is appended. -/
theorem balanced_posting_always_accepted (c : Company) (date description : String)
    (entries : List Entry) (vat_rate : ℚ)
    (h : totalDebits entries = totalCredits entries) :
    (record_transaction c date description entries vat_rate).1 = true ∧
    (record_transaction c date description entries vat_rate).2.transactions.length
      = c.transactions.length + 1 := by
  unfold record_transaction
  rw [if_pos h]
  simp

/-- C5 witness: the invalid-entry list is balanced (both totals 50) and
is accepted by the amended statement. -/
theorem balanced_posting_always_accepted_witness :
    totalDebits invalidEntries = totalCredits invalidEntries ∧
    ((record_transaction seededCompany "2024-03-01" "Invalid entries" invalidEntries (1/5)).1 = true ∧
     (record_transaction seededCompany "2024-03-01" "Invalid entries" invalidEntries (1/5)).2.transactions.length
       = seededCompany.transactions.length + 1) :=
  ⟨by with_unfolding_all decide,
   balanced_posting_always_accepted seededCompany "2024-03-01" "Invalid entries" invalidEntries (1/5)
     (by with_unfolding_all decide)⟩

/-- C6 counterexample: after the cash sale posting from the seeded state
the Income class total changes by -1000, not by +1000 as claimed: the
code subtracts credits from the signed balances of income accounts. -/
theorem income_total_decreases_on_cash_sale :
    (record_transaction seededCompany "2024-01-15" "Cash sale" cashSaleEntries (1/5)).1 = true ∧
    get_account_balance companyAfterSale "income" - get_account_balance seededCompany "income" = -1000 ∧
    get_account_balance companyAfterSale "income" - get_account_balance seededCompany "income" ≠ 1000 := by
  with_unfolding_all decide

/-- C6 amended: from any company whose chart has the standard code and
class skeleton, posting the cash sale example succeeds, the Asset class
total increases by exactly 1200 and the Income class total decreases by
exactly 1000 (credits are subtracted from the signed balances). -/
theorem cash_sale_deltas (c : Company) (date description : String) (vat_rate : ℚ)
    (h : skel c.accounts = chartSkel) :
    (record_transaction c date description cashSaleEntries vat_rate).1 = true ∧
    get_account_balance (record_transaction c date description cashSaleEntries vat_rate).2 "asset"
      = get_account_balance c "asset" + 1200 ∧
    get_account_balance (record_transaction c date description cashSaleEntries vat_rate).2 "income"
      = get_account_balance c "income" - 1000 := by
  have hb : totalDebits cashSaleEntries = totalCredits cashSaleEntries := by
    with_unfolding_all decide
  unfold record_transaction
  rw [if_pos hb]
  refine ⟨rfl, ?_, ?_⟩
  · have hfold := classTotal_foldl cashSaleEntries c.accounts "asset"
    rw [h] at hfold
    have hsum : (cashSaleEntries.map fun e => entryDelta "asset" chartSkel e).sum = 1200 := by
      with_unfolding_all decide
    simp only [get_account_balance]
    rw [hfold, hsum]
  · have hfold := classTotal_foldl cashSaleEntries c.accounts "income"
    rw [h] at hfold
    have hsum : (cashSaleEntries.map fun e => entryDelta "income" chartSkel e).sum = -1000 := by
      with_unfolding_all decide
    simp only [get_account_balance]
    rw [hfold, hsum]
    ring

/-- C6 witness: the amended statement applied to the freshly seeded
company. -/
theorem cash_sale_deltas_witness :
    skel seededCompany.accounts = chartSkel ∧
    ((record_transaction seededCompany "2024-01-15" "Cash sale" cashSaleEntries (1/5)).1 = true ∧
     get_account_balance (record_transaction seededCompany "2024-01-15" "Cash sale" cashSaleEntries (1/5)).2 "asset"
       = get_account_balance seededCompany "asset" + 1200 ∧
     get_account_balance (record_transaction seededCompany "2024-01-15" "Cash sale" cashSaleEntries (1/5)).2 "income"
       = get_account_balance seededCompany "income" - 1000) :=
  ⟨rfl, cash_sale_deltas seededCompany "2024-01-15" "Cash sale" (1/5) rfl⟩

theorem ids_are_sequential_step (c : Company) (date description : String)
    (entries : List Entry) (vat_rate : ℚ)
    (h : txIds c = List.range' 1 c.transactions.length) :
    txIds (record_transaction c date description entries vat_rate).2
      = List.range' 1 (record_transaction c date description entries vat_rate).2.transactions.length := by
  unfold record_transaction
  by_cases hb : totalDebits entries = totalCredits entries
  · rw [if_pos hb]
    simp only [txIds] at h ⊢
    simp only [List.map_append, List.map_cons, List.map_nil, List.length_append,
      List.length_cons, List.length_nil]
    rw [h, Nat.add_zero, List.range'_concat]
    simp [Nat.add_comm]
  · rw [if_neg hb]
    exact h

theorem apply_requests_ids (rs : List Request) :
    ∀ c : Company, txIds c = List.range' 1 c.transactions.length →
      txIds (apply_requests c rs) = List.range' 1 (apply_requests c rs).transactions.length := by
  induction rs with
  | nil => intro c hc; exact hc
  | cons r l ih =>
    intro c hc
    simp only [apply_requests, List.foldl_cons] at ih ⊢
    exact ih _ (ids_are_sequential_step c r.date r.description r.entries r.vat_rate hc)

/-- C7: starting from an empty transaction log, after any sequence of
posting attempts the log ids are exactly 1, 2, ..., n in order (where n
is the number of successful postings, the length of the log): each
successful posting appends the previous maximum id plus one, starting at
1. -/
theorem transaction_ids_sequential (rs : List Request) (c : Company)
    (h : c.transactions = []) :
    txIds (apply_requests c rs)
      = List.range' 1 (apply_requests c rs).transactions.length := by
  apply apply_requests_ids
  rw [txIds, h]
  rfl

/-- C7 witness: the sample request sequence (one success, one failure)
from the seeded company. -/
theorem transaction_ids_sequential_witness :
    seededCompany.transactions = [] ∧
    txIds (apply_requests seededCompany sampleRequests)
      = List.range' 1 (apply_requests seededCompany sampleRequests).transactions.length :=
  ⟨rfl, transaction_ids_sequential sampleRequests seededCompany rfl⟩

/-- C8: resetting a company empties its transaction log, replaces its
accounts with the standard seed (same codes, names and classes), leaves
every seeded balance at exactly zero, and does not change the company
name. -/
theorem reset_company_spec (c : Company) :
    (reset_company c).name = c.name ∧
    (reset_company c).transactions = [] ∧
    (reset_company c).accounts = create_chart_of_accounts ∧
    ((reset_company c).accounts.map fun p => p.2.balance) = List.replicate 23 (0 : ℚ) := by
  refine ⟨rfl, rfl, rfl, ?_⟩
  show (create_chart_of_accounts.map fun p => p.2.balance) = List.replicate 23 (0 : ℚ)
  with_unfolding_all decide

/-- C9: the vat_rate argument is inert metadata.  Two record_transaction
calls that differ only in vat_rate agree on the success flag, on every
account balance, on the company name, on the balance sheet report, on the
net income, on the flattened transaction history, and on every stored
transaction field other than vat_rate. -/
theorem vat_rate_inert (c : Company) (date description : String)
    (entries : List Entry) (v1 v2 : ℚ) :
    (record_transaction c date description entries v1).1
      = (record_transaction c date description entries v2).1 ∧
    (record_transaction c date description entries v1).2.accounts
      = (record_transaction c date description entries v2).2.accounts ∧
    (record_transaction c date description entries v1).2.name
      = (record_transaction c date description entries v2).2.name ∧
    (generate_balance_sheet (record_transaction c date description entries v1).2).1
      = (generate_balance_sheet (record_transaction c date description entries v2).2).1 ∧
    calculate_net_income (record_transaction c date description entries v1).2
      = calculate_net_income (record_transaction c date description entries v2).2 ∧
    get_transaction_history (record_transaction c date description entries v1).2
      = get_transaction_history (record_transaction c date description entries v2).2 ∧
    (record_transaction c date description entries v1).2.transactions.map txWithoutVat
      = (record_transaction c date description entries v2).2.transactions.map txWithoutVat := by
  unfold record_transaction
  by_cases hb : totalDebits entries = totalCredits entries
  · simp only [if_pos hb]
    refine ⟨by trivial, by trivial, by trivial, by trivial, by trivial, ?_, ?_⟩
    · unfold get_transaction_history
      simp only [List.map_append, List.map_cons, List.map_nil]
    · simp only [List.map_append, List.map_cons, List.map_nil, txWithoutVat]
  · simp only [if_neg hb]
    exact ⟨by trivial, by trivial, by trivial, by trivial, by trivial, by trivial, by trivial⟩

theorem posting_preserves_invariants (c : Company) (date description : String)
    (entries : List Entry) (vat_rate : ℚ)
    (hsk : skel c.accounts = chartSkel)
    (hmem : ∀ e ∈ entries, e.account ∈ chartKeys) :
    skel (record_transaction c date description entries vat_rate).2.accounts = chartSkel ∧
    totalBalance (record_transaction c date description entries vat_rate).2.accounts
      = totalBalance c.accounts := by
  unfold record_transaction
  by_cases hb : totalDebits entries = totalCredits entries
  · rw [if_pos hb]
    constructor
    · show skel (entries.foldl applyEntry c.accounts) = chartSkel
      rw [skel_foldl, hsk]
    · show totalBalance (entries.foldl applyEntry c.accounts) = totalBalance c.accounts
      rw [totalBalance_foldl, hsk]
      rw [List.map_congr_left fun e he => keyDelta_chart e (hmem e he)]
      rw [sum_entryAmt, hb]
      ring
  · rw [if_neg hb]
    exact ⟨hsk, rfl⟩

theorem apply_requests_invariants (rs : List Request) :
    ∀ c : Company, skel c.accounts = chartSkel → totalBalance c.accounts = 0 →
      (∀ r ∈ rs, ∀ e ∈ r.entries, e.account ∈ chartKeys) →
      skel (apply_requests c rs).accounts = chartSkel ∧
      totalBalance (apply_requests c rs).accounts = 0 := by
  induction rs with
  | nil => intro c h1 h2 _; exact ⟨h1, h2⟩
  | cons r l ih =>
    intro c h1 h2 hm
    have step := posting_preserves_invariants c r.date r.description r.entries r.vat_rate h1
      (hm r (by simp))
    have rest := ih ((record_transaction c r.date r.description r.entries r.vat_rate).2)
      step.1 (step.2.trans h2) (fun q hq => hm q (by simp [hq]))
    simpa only [apply_requests, List.foldl_cons] using rest

/-- C10: starting from the freshly seeded chart, after any sequence of
posting attempts in which every referenced account code exists in the
standard chart, the signed sum of the five class totals (Asset +
Liability + Equity + Income + Expense, debits added and credits
subtracted uniformly) is exactly zero. -/
theorem signed_class_sums_cancel (rs : List Request)
    (h : ∀ r ∈ rs, ∀ e ∈ r.entries, e.account ∈ chartKeys) :
    get_account_balance (apply_requests seededCompany rs) "asset" +
    get_account_balance (apply_requests seededCompany rs) "liability" +
    get_account_balance (apply_requests seededCompany rs) "equity" +
    get_account_balance (apply_requests seededCompany rs) "income" +
    get_account_balance (apply_requests seededCompany rs) "expense" = 0 := by
  have hzero : totalBalance seededCompany.accounts = 0 := by
    with_unfolding_all decide
  have hinv := apply_requests_invariants rs seededCompany rfl hzero h
  have hcs := classSum_eq_totalBalance (apply_requests seededCompany rs).accounts
    (types_of_chartSkel _ hinv.1)
  simp only [get_account_balance]
  rw [hcs, hinv.2]

/-- C10 witness: the sample request sequence from the seeded company. -/
theorem signed_class_sums_cancel_witness :
    (∀ r ∈ sampleRequests, ∀ e ∈ r.entries, e.account ∈ chartKeys) ∧
    (get_account_balance (apply_requests seededCompany sampleRequests) "asset" +
     get_account_balance (apply_requests seededCompany sampleRequests) "liability" +
     get_account_balance (apply_requests seededCompany sampleRequests) "equity" +
     get_account_balance (apply_requests seededCompany sampleRequests) "income" +
     get_account_balance (apply_requests seededCompany sampleRequests) "expense" = 0) :=
  ⟨by with_unfolding_all decide,
   signed_class_sums_cancel sampleRequests (by with_unfolding_all decide)⟩
